import Mathlib

/-!
Shallow embedding of the battle-engine core of this repository
(shared/types, GridSystem, MovementSystem, CombatSystem, TurnManager,
TimerManager, BattleManager) together with theorems checking the
natural-language specification against it.

Conventions of the embedding:
* TypeScript numbers are `Int` (grid coordinates, hit points, damage);
  grid distances are `Nat`.
* Optional TypeScript fields (`movementPointsLeft?: number`) are `Option Int`;
  the source's `?? d` / lazy default-initialization is modelled by `Option.getD`.
* In-place mutation of the shared battle record is modelled by explicit
  state passing: each operation returns the updated record.
* `Date.now()` / `new Date()` are modelled by an explicit `now : Int`
  parameter threaded through the operations that read the clock.
-/

inductive Team where
  | PLAYER1
  | PLAYER2
deriving DecidableEq

inductive CombatType where
  | MELEE
  | RANGED
deriving DecidableEq

inductive EquipmentSlot where
  | WEAPON
  | ARMOR
  | ACCESSORY1
  | ACCESSORY2
deriving DecidableEq

inductive GameStatus where
  | waiting
  | active
  | finished
deriving DecidableEq

structure Position where
  x : Int
  y : Int
deriving DecidableEq

structure Equipment where
  id : String
  name : String
  slot : EquipmentSlot
  damageBonus : Option Int
  armorBonus : Option Int
  hpBonus : Option Int
  requiredLevel : Int
deriving DecidableEq

structure Character where
  id : String
  name : String
  level : Int
  experience : Int
  position : Position
  maxHp : Int
  currentHp : Int
  baseDamage : Int
  baseArmor : Int
  combatType : CombatType
  equipmentWeapon : Option Equipment
  equipmentArmor : Option Equipment
  equipmentAccessory1 : Option Equipment
  equipmentAccessory2 : Option Equipment
  unlockedSlots : List EquipmentSlot
  team : Team
  isAlive : Bool
  hasMoved : Bool
  hasAttacked : Bool
  movementPointsLeft : Option Int
deriving DecidableEq

structure GameState where
  id : String
  player1Id : String
  player2Id : String
  gridWidth : Int
  gridHeight : Int
  characters : List Character
  currentTurn : Team
  turnNumber : Int
  movementPointsLeft : Int
  status : GameStatus
  winner : Option Team
  turnStartTime : Option Int
  turnTimeLimit : Int
  battleStartTime : Option Int
  battleTimeLimit : Int
  autoEndTurn : Bool
  createdAt : Int
  updatedAt : Int
deriving DecidableEq

namespace GAME_CONSTANTS

def GRID_WIDTH : Int := 8

def GRID_HEIGHT : Int := 10

/-- Per-turn movement budget. The repository's revisions carry different
values for this constant (2 with `MAX_MOVE_DISTANCE_PER_ACTION`, later 5 and
15); the value used here is the one from the revision that also defines
`MAX_MOVE_DISTANCE_PER_ACTION`, which is the revision the shipped
`MovementSystem` reads. No theorem below depends on the numeric value. -/
def MOVEMENT_POINTS_PER_TURN : Int := 2

def MAX_MOVE_DISTANCE_PER_ACTION : Nat := 1

def MELEE_ATTACK_RANGE : Nat := 1

def RANGED_ATTACK_RANGE : Nat := 4

end GAME_CONSTANTS

namespace GridSystem

/-- Modelled from the spec: `GridSystem.isValidPosition` is not under `src/`
(only its callers are). Spec 4.1: true iff 0 ≤ x < width and 0 ≤ y < height. -/
def isValidPosition (p : Position) : Bool :=
  decide (0 ≤ p.x) && decide (p.x < GAME_CONSTANTS.GRID_WIDTH) &&
  decide (0 ≤ p.y) && decide (p.y < GAME_CONSTANTS.GRID_HEIGHT)

/-- Modelled from the spec: `GridSystem.positionsEqual`, value equality of
integer grid coordinates. -/
def positionsEqual (a b : Position) : Bool :=
  decide (a.x = b.x) && decide (a.y = b.y)

/-- Modelled from the spec: `GridSystem.calculateDistance`, grid (Manhattan)
distance. -/
def calculateDistance (a b : Position) : Nat :=
  (a.x - b.x).natAbs + (a.y - b.y).natAbs

/-- Modelled from the spec: `GridSystem.getAdjacentCells`, the at most four
orthogonal neighbors that are valid positions. -/
def getAdjacentCells (p : Position) : List Position :=
  ([⟨p.x + 1, p.y⟩, ⟨p.x - 1, p.y⟩, ⟨p.x, p.y + 1⟩, ⟨p.x, p.y - 1⟩] :
    List Position).filter isValidPosition

/-- Modelled from the spec: a cell lies on the straight path between `a` and
`b` when it is collinear with them, lies within their bounding box, and is
neither endpoint. -/
def onStraightPath (a b o : Position) : Bool :=
  decide ((b.x - a.x) * (o.y - a.y) = (b.y - a.y) * (o.x - a.x)) &&
  decide (min a.x b.x ≤ o.x) && decide (o.x ≤ max a.x b.x) &&
  decide (min a.y b.y ≤ o.y) && decide (o.y ≤ max a.y b.y) &&
  !positionsEqual o a && !positionsEqual o b

/-- Modelled from the spec: `GridSystem.hasLineOfSight`, true iff no obstacle
cell lies on the straight path between the endpoints. -/
def hasLineOfSight (a b : Position) (obstacles : List Position) : Bool :=
  obstacles.all (fun o => !onStraightPath a b o)

end GridSystem

/-- Result record of the legality checks (`{ valid: boolean; error?: string }`). -/
structure ValidCheck where
  valid : Bool
  error : Option String := none
deriving DecidableEq

namespace MovementSystem

/-- `MovementSystem.canMove` from `src/src/game/MovementSystem.ts` (the
shipped single-step variant). The source's in-place initialization of an
undefined `movementPointsLeft` to the full budget before reading it is
modelled by `Option.getD`. -/
def canMove (character : Character) (toPos : Position) (gameState : GameState) :
    ValidCheck :=
  if character.team ≠ gameState.currentTurn then
    { valid := false, error := some "Not this character\x27s turn" }
  else if !GridSystem.isValidPosition toPos then
    { valid := false, error := some "Invalid position" }
  else if GridSystem.positionsEqual character.position toPos then
    { valid := false, error := some "Already at this position" }
  else if gameState.characters.any (fun ch =>
      ch.isAlive && decide (ch.id ≠ character.id) &&
      GridSystem.positionsEqual ch.position toPos) then
    { valid := false, error := some "Cell is occupied by another character" }
  else if GridSystem.calculateDistance character.position toPos >
      GAME_CONSTANTS.MAX_MOVE_DISTANCE_PER_ACTION then
    { valid := false, error := some "Can only move 1 cell at a time" }
  else if character.movementPointsLeft.getD
      GAME_CONSTANTS.MOVEMENT_POINTS_PER_TURN ≤ 0 then
    { valid := false, error := some "No movement points left" }
  else
    { valid := true }

/-- `MovementSystem.executeMove`: moves the character, deducts one movement
point from it and from the team pool, and raises the `autoEndTurn` flag when
every living character of the active team is out of points or the team pool
is exhausted. The mutation of the aliased character object is modelled by
mapping over the character list by id. -/
def executeMove (characterId : String) (toPos : Position)
    (gameState : GameState) : GameState :=
  let chars := gameState.characters.map (fun c =>
    if c.id = characterId then
      { c with
          position := toPos,
          movementPointsLeft := some
            ((c.movementPointsLeft.getD GAME_CONSTANTS.MOVEMENT_POINTS_PER_TURN) - 1) }
    else c)
  let gs1 := { gameState with
    characters := chars,
    movementPointsLeft := gameState.movementPointsLeft - 1 }
  let allCharactersUsedMovement :=
    (gs1.characters.filter (fun c =>
      decide (c.team = gs1.currentTurn) && c.isAlive)).all
      (fun c => decide (c.movementPointsLeft.getD 0 ≤ 0))
  if allCharactersUsedMovement || decide (gs1.movementPointsLeft ≤ 0) then
    { gs1 with autoEndTurn := true }
  else
    gs1

end MovementSystem

namespace CombatSystem

/-- `CombatSystem.canAttack` from `src/src/game/CombatSystem.ts`. -/
def canAttack (attacker target : Character) (gameState : GameState) :
    ValidCheck :=
  if attacker.hasAttacked then
    { valid := false, error := some "Character has already attacked this turn" }
  else if !target.isAlive then
    { valid := false, error := some "Target is not alive" }
  else if attacker.team = target.team then
    { valid := false, error := some "Cannot attack ally" }
  else
    let distance := GridSystem.calculateDistance attacker.position target.position
    match attacker.combatType with
    | CombatType.MELEE =>
        if distance > GAME_CONSTANTS.MELEE_ATTACK_RANGE then
          { valid := false, error := some "Target is out of melee range" }
        else
          { valid := true }
    | CombatType.RANGED =>
        if distance > GAME_CONSTANTS.RANGED_ATTACK_RANGE then
          { valid := false, error := some "Target is out of ranged attack range" }
        else
          let occupiedCells := (gameState.characters.filter (fun c =>
            c.isAlive && decide (c.id ≠ attacker.id) &&
            decide (c.id ≠ target.id))).map (fun c => c.position)
          if !GridSystem.hasLineOfSight attacker.position target.position
              occupiedCells then
            { valid := false, error := some "No line of sight to target" }
          else
            { valid := true }

/-- `CombatSystem.calculateDamage`: base damage plus equipped-weapon bonus
against base armor plus equipped-armor bonus, floored at 1. -/
def calculateDamage (attacker target : Character) : Int :=
  let totalDamage := attacker.baseDamage +
    (match attacker.equipmentWeapon with
     | some w => w.damageBonus.getD 0
     | none => 0)
  let totalArmor := target.baseArmor +
    (match target.equipmentArmor with
     | some e => e.armorBonus.getD 0
     | none => 0)
  max 1 (totalDamage - totalArmor)

/-- Result of `CombatSystem.executeAttack` together with the updated attacker
and target records (the source mutates the two character objects in place). -/
structure AttackOutcome where
  attacker : Character
  target : Character
  damage : Int
  killed : Bool
deriving DecidableEq

/-- `CombatSystem.executeAttack`: applies the damage to the target, floors
health at 0, marks the target not alive when health reaches 0, marks the
attacker as having attacked. -/
def executeAttack (attacker target : Character) : AttackOutcome :=
  let damage := calculateDamage attacker target
  let newHp := max 0 (target.currentHp - damage)
  let newAlive := if newHp = 0 then false else target.isAlive
  { attacker := { attacker with hasAttacked := true },
    target := { target with currentHp := newHp, isAlive := newAlive },
    damage := damage,
    killed := !newAlive }

/-- Result record of `CombatSystem.checkBattleEnd`. -/
structure BattleEnd where
  ended : Bool
  winner : Option String := none
deriving DecidableEq

/-- `CombatSystem.checkBattleEnd`: counts living characters per team; a team
with zero living characters loses and the opposing player id is declared
winner (the PLAYER1-wiped branch is checked first). -/
def checkBattleEnd (gameState : GameState) : BattleEnd :=
  let player1Alive := (gameState.characters.filter (fun c =>
    decide (c.team = Team.PLAYER1) && c.isAlive)).length
  let player2Alive := (gameState.characters.filter (fun c =>
    decide (c.team = Team.PLAYER2) && c.isAlive)).length
  if player1Alive = 0 then
    { ended := true, winner := some gameState.player2Id }
  else if player2Alive = 0 then
    { ended := true, winner := some gameState.player1Id }
  else
    { ended := false }

end CombatSystem

namespace TurnManager

/-- `TurnManager.startTurn` (second revision in `src/src/game/TurnManager.ts`,
the one consistent with the shipped per-character movement accounting):
resets `hasAttacked` and the per-character movement points of every living
character of the team whose turn begins, resets the team-level movement pool,
and records the turn-start timestamp. -/
def startTurn (now : Int) (gameState : GameState) : GameState :=
  let currentTeam := gameState.currentTurn
  { gameState with
      characters := gameState.characters.map (fun c =>
        if c.team = currentTeam ∧ c.isAlive = true then
          { c with
              hasAttacked := false,
              movementPointsLeft := some GAME_CONSTANTS.MOVEMENT_POINTS_PER_TURN }
        else c),
      movementPointsLeft := GAME_CONSTANTS.MOVEMENT_POINTS_PER_TURN,
      turnStartTime := some now }

/-- `TurnManager.endTurn`: flips the current team, increments `turnNumber`
when control returns to PLAYER1, then immediately starts the new turn. -/
def endTurn (now : Int) (gameState : GameState) : GameState :=
  let newTurn := if gameState.currentTurn = Team.PLAYER1
    then Team.PLAYER2 else Team.PLAYER1
  let newNumber := if newTurn = Team.PLAYER1
    then gameState.turnNumber + 1 else gameState.turnNumber
  startTurn now { gameState with currentTurn := newTurn, turnNumber := newNumber }

/-- `TurnManager.getPlayerTeam`: PLAYER1 or PLAYER2 for the two registered
player ids, null for anyone else (including the synthetic SYSTEM actor). -/
def getPlayerTeam (playerId : String) (gameState : GameState) : Option Team :=
  if playerId = gameState.player1Id then some Team.PLAYER1
  else if playerId = gameState.player2Id then some Team.PLAYER2
  else none

/-- `TurnManager.canAct`: the player's team equals the current turn. -/
def canAct (playerId : String) (gameState : GameState) : Bool :=
  decide (getPlayerTeam playerId gameState = some gameState.currentTurn)

end TurnManager

namespace TimerManager

/-- `TimerManager.determineWinnerByTime`: more living characters wins, then
greater summed current health of living characters, then PLAYER1. -/
def determineWinnerByTime (gameState : GameState) : Team :=
  let player1Characters := gameState.characters.filter (fun c =>
    decide (c.team = Team.PLAYER1) && c.isAlive)
  let player2Characters := gameState.characters.filter (fun c =>
    decide (c.team = Team.PLAYER2) && c.isAlive)
  if player1Characters.length > player2Characters.length then Team.PLAYER1
  else if player2Characters.length > player1Characters.length then Team.PLAYER2
  else
    let player1Health := player1Characters.foldl (fun sum c => sum + c.currentHp) (0 : Int)
    let player2Health := player2Characters.foldl (fun sum c => sum + c.currentHp) (0 : Int)
    if player1Health > player2Health then Team.PLAYER1
    else if player2Health > player1Health then Team.PLAYER2
    else Team.PLAYER1

end TimerManager

/-- Action payloads consumed by `BattleManager.processAction` (the revision of
`shared/types` that includes SURRENDER). -/
inductive BattleAction where
  | move (characterId : String) (fromPos toPos : Position)
  | attack (attackerId targetId : String)
  | endTurn
  | equipItem (characterId equipmentId : String)
  | surrender
deriving DecidableEq

/-- `ActionResult` from `shared/types`. -/
structure ActionResult where
  success : Bool
  error : Option String := none
  newState : Option GameState := none
  damage : Option Int := none
  killedCharacterId : Option String := none
deriving DecidableEq

namespace BattleManager

/-- `BattleManager.handleEndTurn`: delegates to `TurnManager.endTurn` and
stamps `updatedAt`; always succeeds. -/
def handleEndTurn (now : Int) (gameState : GameState) : ActionResult :=
  let gs := TurnManager.endTurn now gameState
  { success := true, newState := some { gs with updatedAt := now } }

/-- `BattleManager.handleMove`: resolves the character by id, validates with
`canMove`, executes, stamps `updatedAt`, and auto-chains an END_TURN when the
`autoEndTurn` flag is set on the record. -/
def handleMove (characterId : String) (toPos : Position) (now : Int)
    (gameState : GameState) : ActionResult :=
  match gameState.characters.find? (fun c => decide (c.id = characterId)) with
  | none => { success := false, error := some "Character not found" }
  | some character =>
    let chk := MovementSystem.canMove character toPos gameState
    if chk.valid = false then
      { success := false, error := chk.error }
    else
      let gs1 := MovementSystem.executeMove character.id toPos gameState
      let gs2 := { gs1 with updatedAt := now }
      if gs2.autoEndTurn then
        let endTurnResult := handleEndTurn now gs2
        if endTurnResult.success && endTurnResult.newState.isSome then
          endTurnResult
        else
          { success := true, newState := some gs2 }
      else
        { success := true, newState := some gs2 }

/-- `BattleManager.handleAttack`: resolves attacker and target by id,
validates with `canAttack`, executes the attack, evaluates `checkBattleEnd`
(finishing the battle and recording the winner when a team is wiped), and
otherwise auto-chains an END_TURN when the `autoEndTurn` flag is set. -/
def handleAttack (attackerId targetId : String) (now : Int)
    (gameState : GameState) : ActionResult :=
  match gameState.characters.find? (fun c => decide (c.id = attackerId)),
        gameState.characters.find? (fun c => decide (c.id = targetId)) with
  | some attacker, some target =>
    let chk := CombatSystem.canAttack attacker target gameState
    if chk.valid = false then
      { success := false, error := chk.error }
    else
      let outcome := CombatSystem.executeAttack attacker target
      let chars := gameState.characters.map (fun c =>
        if c.id = targetId then outcome.target
        else if c.id = attackerId then outcome.attacker
        else c)
      let gs1 := { gameState with characters := chars, updatedAt := now }
      let battleEnd := CombatSystem.checkBattleEnd gs1
      let gs2 :=
        if battleEnd.ended then
          { gs1 with
              status := GameStatus.finished,
              winner := some (if battleEnd.winner = some gs1.player1Id
                then Team.PLAYER1 else Team.PLAYER2) }
        else gs1
      if gs2.autoEndTurn && !battleEnd.ended then
        let endTurnResult := handleEndTurn now gs2
        if endTurnResult.success && endTurnResult.newState.isSome then
          { success := true,
            newState := endTurnResult.newState,
            damage := some outcome.damage,
            killedCharacterId := if outcome.killed then some target.id else none }
        else
          { success := true,
            newState := some gs2,
            damage := some outcome.damage,
            killedCharacterId := if outcome.killed then some target.id else none }
      else
        { success := true,
          newState := some gs2,
          damage := some outcome.damage,
          killedCharacterId := if outcome.killed then some target.id else none }
  | _, _ => { success := false, error := some "Character not found" }

/-- `BattleManager.handleSurrender`: the submitting player's team loses and
the opposing team is declared winner; the battle finishes immediately. -/
def handleSurrender (playerId : String) (now : Int) (gameState : GameState) :
    ActionResult :=
  let loser := if playerId = gameState.player1Id then Team.PLAYER1 else Team.PLAYER2
  let winner := if loser = Team.PLAYER1 then Team.PLAYER2 else Team.PLAYER1
  { success := true,
    newState := some { gameState with
      status := GameStatus.finished,
      winner := some winner,
      updatedAt := now } }

/-- `BattleManager.processAction`: the single authoritative entry point.
Rejects with Not your turn when `TurnManager.canAct` is false, then
dispatches by action kind; EQUIP_ITEM falls into the default branch. -/
def processAction (action : BattleAction) (playerId : String) (now : Int)
    (gameState : GameState) : ActionResult :=
  if !TurnManager.canAct playerId gameState then
    { success := false, error := some "Not your turn" }
  else
    match action with
    | BattleAction.move characterId _ toPos =>
        handleMove characterId toPos now gameState
    | BattleAction.attack attackerId targetId =>
        handleAttack attackerId targetId now gameState
    | BattleAction.endTurn => handleEndTurn now gameState
    | BattleAction.surrender => handleSurrender playerId now gameState
    | BattleAction.equipItem _ _ =>
        { success := false, error := some "Unknown action type" }

end BattleManager

/-! ### Specification-side helper definitions

These restate notions from the specification's wording (living-character
counts, health sums, traversable paths, the opposing team) independently of
the code-side computations above, for use in the theorem statements. -/

/-- Number of living characters of a team (spec wording: a team's living
characters). -/
def livingCount (gameState : GameState) (team : Team) : Nat :=
  gameState.characters.countP (fun c => decide (c.team = team) && c.isAlive)

/-- Summed current health of a team's living characters. -/
def livingHpSum (gameState : GameState) (team : Team) : Int :=
  ((gameState.characters.filter (fun c =>
    decide (c.team = team) && c.isAlive)).map (fun c => c.currentHp)).sum

/-- The opposing team. -/
def otherTeam : Team → Team
  | Team.PLAYER1 => Team.PLAYER2
  | Team.PLAYER2 => Team.PLAYER1

/-- Consecutive cells of a path are orthogonally adjacent valid cells. -/
def chainOk : List Position → Bool
  | [] => true
  | [_] => true
  | a :: b :: rest =>
      decide (b ∈ GridSystem.getAdjacentCells a) && chainOk (b :: rest)

/-- A path cell is free when it is the goal (exempt from the occupancy check)
or no other living character occupies it. -/
def cellFreeForPath (gameState : GameState) (moverId : String)
    (goal p : Position) : Bool :=
  GridSystem.positionsEqual p goal ||
  !(gameState.characters.any (fun ch =>
    ch.isAlive && decide (ch.id ≠ moverId) &&
    GridSystem.positionsEqual ch.position p))

/-- Spec clause (5) of `canMove`: a traversable path from the current
position to the destination over the 4-connected grid that does not cross
cells occupied by other living characters (goal cell exempt). -/
def isTraversablePath (gameState : GameState) (moverId : String)
    (startPos goal : Position) (path : List Position) : Bool :=
  decide (path.head? = some startPos) && decide (path.getLast? = some goal) &&
  chainOk path &&
  path.tail.all (cellFreeForPath gameState moverId goal)

/-- Length of a path in steps (spec clause (6): number of steps, not
straight-line distance). -/
def pathSteps (path : List Position) : Nat := path.length - 1

/-! ### Test fixtures -/

/-- Character fixture builder used by the concrete battle states below. -/
def mkChar (id : String) (team : Team) (pos : Position) (ct : CombatType)
    (hp dmg armor : Int) (alive attacked : Bool) (mp : Option Int) : Character :=
  { id := id, name := id, level := 1, experience := 0, position := pos,
    maxHp := hp, currentHp := hp, baseDamage := dmg, baseArmor := armor,
    combatType := ct, equipmentWeapon := none, equipmentArmor := none,
    equipmentAccessory1 := none, equipmentAccessory2 := none,
    unlockedSlots := [], team := team, isAlive := alive, hasMoved := false,
    hasAttacked := attacked, movementPointsLeft := mp }

/-- Battle-state fixture builder: players p1 and p2, an 8 by 10 grid,
active status, no flags set. -/
def mkState (chars : List Character) (turn : Team) (mp : Int) : GameState :=
  { id := "b1", player1Id := "p1", player2Id := "p2",
    gridWidth := GAME_CONSTANTS.GRID_WIDTH,
    gridHeight := GAME_CONSTANTS.GRID_HEIGHT,
    characters := chars, currentTurn := turn, turnNumber := 1,
    movementPointsLeft := mp, status := GameStatus.active, winner := none,
    turnStartTime := some 0, turnTimeLimit := 15, battleStartTime := some 0,
    battleTimeLimit := 900, autoEndTurn := false, createdAt := 0,
    updatedAt := 0 }

/-- Character used as `List.getD` default in pointwise statements. -/
def defaultCharacter : Character :=
  mkChar "none" Team.PLAYER1 ⟨0, 0⟩ CombatType.MELEE 1 1 0 true false none

def defC2 : Character :=
  mkChar "a1" Team.PLAYER1 ⟨3, 3⟩ CombatType.MELEE 30 20 5 true false (some 2)

def atkC2 : Character :=
  mkChar "e1" Team.PLAYER2 ⟨3, 4⟩ CombatType.MELEE 30 20 0 true false (some 2)

def gsC2 : GameState := mkState [defC2, atkC2] Team.PLAYER1 2

def deadC5 : Character :=
  { mkChar "d1" Team.PLAYER1 ⟨2, 2⟩ CombatType.MELEE 30 10 0 false false (some 2)
    with currentHp := 0 }

def allyC5 : Character :=
  mkChar "w1" Team.PLAYER1 ⟨5, 5⟩ CombatType.MELEE 30 10 0 true false (some 2)

def enemyC5 : Character :=
  mkChar "z1" Team.PLAYER2 ⟨0, 0⟩ CombatType.MELEE 30 10 0 true false (some 2)

def gsC5 : GameState := mkState [deadC5, allyC5, enemyC5] Team.PLAYER1 2

def cC3 : Character :=
  mkChar "m1" Team.PLAYER1 ⟨0, 0⟩ CombatType.MELEE 30 10 0 true false (some 5)

def farC3 : Character :=
  mkChar "f1" Team.PLAYER2 ⟨7, 7⟩ CombatType.MELEE 30 10 0 true false (some 2)

def gsC3 : GameState := mkState [cC3, farC3] Team.PLAYER1 5

/-! ### Bridge lemmas -/

/-- The spec-modelled `positionsEqual` decides value equality of positions. -/
theorem positionsEqual_iff (a b : Position) :
    GridSystem.positionsEqual a b = true ↔ a = b := by
  cases a; cases b
  simp [GridSystem.positionsEqual, Position.mk.injEq]

/-- `List.getD` after `List.map`, at an index inside the list. -/
theorem getD_map_of_lt (f : Character → Character) :
    ∀ (l : List Character) (i : Nat) (d : Character), i < l.length →
      (l.map f).getD i d = f (l.getD i d)
  | [], _, _, h => absurd h (by simp)
  | _ :: _, 0, _, _ => rfl
  | _ :: rest, i + 1, d, h => by
      simp only [List.map_cons, List.getD_cons_succ]
      exact getD_map_of_lt f rest i d (by simpa using h)

/-- Folding health accumulation equals the sum of mapped health values. -/
theorem foldl_add_currentHp (l : List Character) (acc : Int) :
    l.foldl (fun sum c => sum + c.currentHp) acc =
      acc + (l.map (fun c => c.currentHp)).sum := by
  induction l generalizing acc with
  | nil => simp
  | cons c rest ih =>
      simp [List.foldl_cons, ih, add_assoc]

/-! ### Claim theorems -/

/-- Claim C1. The claim states that `processAction` accepts an END_TURN
submitted by the synthetic system actor even though its team is not the
current turn. The code has no such exemption: `getPlayerTeam` returns null
for any id that is neither player, so `canAct` is false and `processAction`
answers Not your turn. This theorem evaluates the code at the failing
input class: any battle whose players are not named SYSTEM rejects the
timer's synthetic END_TURN. -/
theorem C1_processAction_rejects_system_actor (gs : GameState) (now : Int)
    (h1 : gs.player1Id ≠ "SYSTEM") (h2 : gs.player2Id ≠ "SYSTEM") :
    BattleManager.processAction BattleAction.endTurn "SYSTEM" now gs =
      { success := false, error := some "Not your turn" } := by
  have h1x : ¬("SYSTEM" = gs.player1Id) := fun e => h1 e.symm
  have h2x : ¬("SYSTEM" = gs.player2Id) := fun e => h2 e.symm
  simp [BattleManager.processAction, TurnManager.canAct,
    TurnManager.getPlayerTeam, h1x, h2x]

def gsC1w : GameState := mkState [] Team.PLAYER1 2

/-- Witness for C1 at a concrete battle. -/
theorem C1_processAction_rejects_system_actor_witness :
    (gsC1w.player1Id ≠ "SYSTEM" ∧ gsC1w.player2Id ≠ "SYSTEM") ∧
    BattleManager.processAction BattleAction.endTurn "SYSTEM" 0 gsC1w =
      { success := false, error := some "Not your turn" } :=
  ⟨by decide,
   C1_processAction_rejects_system_actor gsC1w 0 (by decide) (by decide)⟩

/-- Claim C2. The claim states that every MOVE or ATTACK whose acting
character belongs to a team other than `currentTurn` is rejected. The code
rejects such MOVE actions (the team check inside `canMove`), but
`canAttack` never compares the attacker's team with `currentTurn`: here the
player whose turn it is (p1, PLAYER1's turn) submits an ATTACK whose
attacker is the enemy character e1 (team PLAYER2), and `processAction`
accepts it and applies 15 damage to a1 (health 30 to 15). -/
theorem C2_enemy_attacker_attack_accepted :
    atkC2.team ≠ gsC2.currentTurn ∧
    (BattleManager.processAction (BattleAction.attack "e1" "a1") "p1" 0 gsC2).success
      = true ∧
    (BattleManager.processAction (BattleAction.attack "e1" "a1") "p1" 0 gsC2).damage
      = some 15 ∧
    (((BattleManager.processAction (BattleAction.attack "e1" "a1") "p1" 0
        gsC2).newState.bind
      (fun s => s.characters.find? (fun c => decide (c.id = "a1")))).map
      (fun c => c.currentHp)) = some 15 ∧
    defC2.currentHp = 30 := by decide

/-- Claim C5. The claim states that a character whose health has reached 0
cannot act, and that `processAction` rejects MOVE actions naming it as the
mover. Neither `canMove` nor `canAttack` inspects the acting character's
`isAlive` flag: here the dead character d1 (health 0, not alive, PLAYER1)
is moved by its owner during PLAYER1's turn and `processAction` accepts,
relocating the corpse from (2,2) to (2,3). -/
theorem C5_dead_character_move_accepted :
    deadC5.currentHp = 0 ∧ deadC5.isAlive = false ∧
    (BattleManager.processAction (BattleAction.move "d1" ⟨2, 2⟩ ⟨2, 3⟩) "p1" 0
      gsC5).success = true ∧
    (((BattleManager.processAction (BattleAction.move "d1" ⟨2, 2⟩ ⟨2, 3⟩) "p1" 0
        gsC5).newState.bind
      (fun s => s.characters.find? (fun c => decide (c.id = "d1")))).map
      (fun c => c.position)) = some ⟨2, 3⟩ := by decide

/-- Claim C3, counterexample. The claim describes the path-budgeted movement
model: a destination several cells away is legal whenever enough movement
points remain. The shipped `MovementSystem.canMove` instead enforces a
one-cell-per-action rule: character m1 at (0,0) with 5 movement points,
destination (0,2) — a valid, free cell with a clear 2-step traversable path,
well within budget — is rejected with Can only move 1 cell at a time. -/
theorem C3_canMove_rejects_reachable_destination :
    cC3.team = gsC3.currentTurn ∧
    GridSystem.isValidPosition ⟨0, 2⟩ = true ∧
    GridSystem.positionsEqual cC3.position ⟨0, 2⟩ = false ∧
    gsC3.characters.any (fun ch =>
      ch.isAlive && decide (ch.id ≠ cC3.id) &&
      GridSystem.positionsEqual ch.position ⟨0, 2⟩) = false ∧
    isTraversablePath gsC3 cC3.id cC3.position ⟨0, 2⟩
      [⟨0, 0⟩, ⟨0, 1⟩, ⟨0, 2⟩] = true ∧
    ((pathSteps [⟨0, 0⟩, ⟨0, 1⟩, ⟨0, 2⟩] : Int) ≤
      cC3.movementPointsLeft.getD GAME_CONSTANTS.MOVEMENT_POINTS_PER_TURN) ∧
    (MovementSystem.canMove cC3 ⟨0, 2⟩ gsC3).valid = false ∧
    (MovementSystem.canMove cC3 ⟨0, 2⟩ gsC3).error =
      some "Can only move 1 cell at a time" := by decide


/-- Claim C3 as amended: for a character on the active team, `canMove`
returns valid exactly when the destination is a valid grid cell, differs
from the current position, is not occupied by another living character, lies
at grid distance at most `MAX_MOVE_DISTANCE_PER_ACTION` (one cell), and the
character's remaining movement points (defaulting to the full budget when
unset) are positive. -/
theorem C3_canMove_single_step_iff (c : Character) (toPos : Position)
    (gs : GameState) (h : c.team = gs.currentTurn) :
    (MovementSystem.canMove c toPos gs).valid = true ↔
      (GridSystem.isValidPosition toPos = true ∧
       c.position ≠ toPos ∧
       (∀ ch ∈ gs.characters,
          ch.isAlive = true → ch.id ≠ c.id → ch.position ≠ toPos) ∧
       GridSystem.calculateDistance c.position toPos ≤
         GAME_CONSTANTS.MAX_MOVE_DISTANCE_PER_ACTION ∧
       0 < c.movementPointsLeft.getD GAME_CONSTANTS.MOVEMENT_POINTS_PER_TURN) := by
  have hne : ¬(c.team ≠ gs.currentTurn) := fun hk => hk h
  unfold MovementSystem.canMove
  rw [if_neg hne]
  split_ifs with h1 h2 h3 h4 h5
  · refine iff_of_false (by simp) ?_
    rintro ⟨hv, -, -, -, -⟩
    rw [Bool.not_eq_true'] at h1
    exact absurd hv (by simp [h1])
  · refine iff_of_false (by simp) ?_
    rintro ⟨-, hne2, -, -, -⟩
    exact hne2 ((positionsEqual_iff _ _).mp h2)
  · refine iff_of_false (by simp) ?_
    rintro ⟨-, -, hall, -, -⟩
    simp only [List.any_eq_true, Bool.and_eq_true, decide_eq_true_eq,
      positionsEqual_iff] at h3
    obtain ⟨ch, hmem, ⟨ha, hb⟩, hc⟩ := h3
    exact hall ch hmem ha hb hc
  · refine iff_of_false (by simp) ?_
    rintro ⟨-, -, -, hd, -⟩
    omega
  · refine iff_of_false (by simp) ?_
    rintro ⟨-, -, -, -, hm⟩
    omega
  · refine iff_of_true rfl ⟨by simpa using h1, ?_, ?_, by omega, by omega⟩
    · intro he
      exact absurd ((positionsEqual_iff _ _).mpr he) h2
    · intro ch hmem ha hb he
      have hx : (gs.characters.any fun ch =>
          ch.isAlive && decide (ch.id ≠ c.id) &&
          GridSystem.positionsEqual ch.position toPos) = true := by
        simp only [List.any_eq_true, Bool.and_eq_true, decide_eq_true_eq,
          positionsEqual_iff]
        exact ⟨ch, hmem, ⟨ha, hb⟩, he⟩
      exact absurd hx h3

def cC3w : Character :=
  mkChar "s1" Team.PLAYER1 ⟨4, 4⟩ CombatType.MELEE 30 10 0 true false (some 2)

def gsC3w : GameState := mkState [cC3w] Team.PLAYER1 2

/-- Witness for the amended C3 at a concrete adjacent move. -/
theorem C3_canMove_single_step_iff_witness :
    cC3w.team = gsC3w.currentTurn ∧
    (MovementSystem.canMove cC3w ⟨4, 5⟩ gsC3w).valid = true :=
  ⟨by decide,
   (C3_canMove_single_step_iff cC3w ⟨4, 5⟩ gsC3w (by decide)).mpr (by decide)⟩

/-- Claim C4. `executeAttack` deals damage equal to
max(1, baseDamage + weapon damage bonus − (baseArmor + armor bonus)) — hence
at least 1 — subtracts it from the target's health floored at 0, sets the
target's isAlive to false exactly when health reaches 0 (for a target that
was alive), marks the attacker as having attacked, and reports the damage
and whether the target died. -/
theorem C4_executeAttack_spec (a t : Character) (h : t.isAlive = true) :
    (CombatSystem.executeAttack a t).damage =
      max 1 ((a.baseDamage +
        (match a.equipmentWeapon with
         | some w => w.damageBonus.getD 0
         | none => 0)) -
       (t.baseArmor +
        (match t.equipmentArmor with
         | some e => e.armorBonus.getD 0
         | none => 0))) ∧
    1 ≤ (CombatSystem.executeAttack a t).damage ∧
    (CombatSystem.executeAttack a t).target.currentHp =
      max 0 (t.currentHp - (CombatSystem.executeAttack a t).damage) ∧
    ((CombatSystem.executeAttack a t).target.isAlive = false ↔
      (CombatSystem.executeAttack a t).target.currentHp = 0) ∧
    (CombatSystem.executeAttack a t).attacker = { a with hasAttacked := true } ∧
    (CombatSystem.executeAttack a t).killed =
      !(CombatSystem.executeAttack a t).target.isAlive := by
  refine ⟨rfl, le_max_left _ _, rfl, ?_, rfl, rfl⟩
  show (if max 0 (t.currentHp - CombatSystem.calculateDamage a t) = 0
      then false else t.isAlive) = false ↔
    max 0 (t.currentHp - CombatSystem.calculateDamage a t) = 0
  split_ifs with hz
  · simp [hz]
  · simp [h, hz]

def aC4w : Character :=
  mkChar "aw" Team.PLAYER1 ⟨0, 0⟩ CombatType.MELEE 30 20 0 true false (some 2)

def tC4w : Character :=
  mkChar "tw" Team.PLAYER2 ⟨0, 1⟩ CombatType.MELEE 30 10 5 true false (some 2)

/-- Witness for C4: a 20-damage attacker against a 5-armor living target. -/
theorem C4_executeAttack_spec_witness :
    tC4w.isAlive = true ∧
    1 ≤ (CombatSystem.executeAttack aC4w tC4w).damage ∧
    ((CombatSystem.executeAttack aC4w tC4w).target.isAlive = false ↔
      (CombatSystem.executeAttack aC4w tC4w).target.currentHp = 0) :=
  ⟨by decide, (C4_executeAttack_spec aC4w tC4w (by decide)).2.1,
   (C4_executeAttack_spec aC4w tC4w (by decide)).2.2.2.1⟩

/-- Claim C6. `checkBattleEnd` reports ended exactly when a team has zero
living characters, and when exactly one team is wiped out the declared
winner is the player id of the team that still has a living character. -/
theorem C6_checkBattleEnd_spec (gs : GameState) :
    ((CombatSystem.checkBattleEnd gs).ended = true ↔
      (livingCount gs Team.PLAYER1 = 0 ∨ livingCount gs Team.PLAYER2 = 0)) ∧
    (livingCount gs Team.PLAYER1 = 0 →
      (CombatSystem.checkBattleEnd gs).winner = some gs.player2Id) ∧
    (0 < livingCount gs Team.PLAYER1 → livingCount gs Team.PLAYER2 = 0 →
      (CombatSystem.checkBattleEnd gs).winner = some gs.player1Id) := by
  unfold CombatSystem.checkBattleEnd livingCount
  simp only [List.countP_eq_length_filter]
  split_ifs with h1 h2
  · exact ⟨iff_of_true rfl (Or.inl h1), fun _ => rfl,
      fun hpos _ => absurd h1 (by omega)⟩
  · exact ⟨iff_of_true rfl (Or.inr h2), fun hz => absurd hz h1,
      fun _ _ => rfl⟩
  · refine ⟨iff_of_false (by simp) ?_, fun hz => absurd hz h1,
      fun _ hz => absurd hz h2⟩
    rintro (hz | hz)
    · exact h1 hz
    · exact h2 hz

def aliveC6w : Character :=
  mkChar "x1" Team.PLAYER1 ⟨1, 1⟩ CombatType.MELEE 30 10 0 true false (some 2)

def deadC6w : Character :=
  { mkChar "y1" Team.PLAYER2 ⟨6, 6⟩ CombatType.MELEE 30 10 0 false false (some 2)
    with currentHp := 0 }

def gsC6w : GameState := mkState [aliveC6w, deadC6w] Team.PLAYER1 2

/-- Witness for C6: PLAYER2 wiped out, PLAYER1 survivor declared winner. -/
theorem C6_checkBattleEnd_spec_witness :
    (0 < livingCount gsC6w Team.PLAYER1 ∧ livingCount gsC6w Team.PLAYER2 = 0) ∧
    (CombatSystem.checkBattleEnd gsC6w).winner = some gsC6w.player1Id :=
  ⟨by decide, (C6_checkBattleEnd_spec gsC6w).2.2 (by decide) (by decide)⟩

/-- Claim C7. Two applications of `endTurn` restore the original current
team and increase `turnNumber` by exactly one; a single `endTurn` flips the
current team to the other team and increments `turnNumber` exactly when the
newly current team is PLAYER1. -/
theorem C7_endTurn_alternation (gs : GameState) (n1 n2 : Int) :
    (TurnManager.endTurn n2 (TurnManager.endTurn n1 gs)).currentTurn =
      gs.currentTurn ∧
    (TurnManager.endTurn n2 (TurnManager.endTurn n1 gs)).turnNumber =
      gs.turnNumber + 1 ∧
    (TurnManager.endTurn n1 gs).currentTurn = otherTeam gs.currentTurn ∧
    (TurnManager.endTurn n1 gs).turnNumber =
      (if (TurnManager.endTurn n1 gs).currentTurn = Team.PLAYER1
       then gs.turnNumber + 1 else gs.turnNumber) := by
  cases hgs : gs.currentTurn <;>
    simp [TurnManager.endTurn, TurnManager.startTurn, otherTeam, hgs]

/-- Claim C8. After `startTurn`, every living character of the team whose
turn begins has `hasAttacked = false` and a full per-character movement
budget while all its other fields are untouched, the team-level movement
pool is reset to the full budget, the turn-start timestamp is recorded, and
characters of the other team as well as dead characters are unchanged. -/
theorem C8_startTurn_spec (gs : GameState) (now : Int) :
    (TurnManager.startTurn now gs).movementPointsLeft =
      GAME_CONSTANTS.MOVEMENT_POINTS_PER_TURN ∧
    (TurnManager.startTurn now gs).turnStartTime = some now ∧
    (TurnManager.startTurn now gs).characters.length = gs.characters.length ∧
    ∀ i, i < gs.characters.length →
      (((gs.characters.getD i defaultCharacter).team = gs.currentTurn →
        (gs.characters.getD i defaultCharacter).isAlive = true →
        (TurnManager.startTurn now gs).characters.getD i defaultCharacter =
          { gs.characters.getD i defaultCharacter with
              hasAttacked := false,
              movementPointsLeft :=
                some GAME_CONSTANTS.MOVEMENT_POINTS_PER_TURN }) ∧
      (((gs.characters.getD i defaultCharacter).team ≠ gs.currentTurn ∨
        (gs.characters.getD i defaultCharacter).isAlive = false) →
        (TurnManager.startTurn now gs).characters.getD i defaultCharacter =
          gs.characters.getD i defaultCharacter)) := by
  refine ⟨rfl, rfl, by simp [TurnManager.startTurn], ?_⟩
  intro i hi
  have hmap : (TurnManager.startTurn now gs).characters.getD i defaultCharacter
      = (fun c => if c.team = gs.currentTurn ∧ c.isAlive = true then
          { c with
              hasAttacked := false,
              movementPointsLeft :=
                some GAME_CONSTANTS.MOVEMENT_POINTS_PER_TURN }
        else c) (gs.characters.getD i defaultCharacter) :=
    getD_map_of_lt _ gs.characters i defaultCharacter hi
  rw [hmap]
  dsimp only
  constructor
  · intro ht ha
    rw [if_pos ⟨ht, ha⟩]
  · intro hor
    have hcond : ¬((gs.characters.getD i defaultCharacter).team = gs.currentTurn ∧
        (gs.characters.getD i defaultCharacter).isAlive = true) := by
      rintro ⟨h1, h2⟩
      rcases hor with hteam | hdead
      · exact hteam h1
      · rw [hdead] at h2
        exact Bool.false_ne_true h2
    rw [if_neg hcond]

def chC8w : Character :=
  mkChar "s8" Team.PLAYER1 ⟨1, 1⟩ CombatType.MELEE 30 10 0 true true (some 0)

def gsC8w : GameState := mkState [chC8w] Team.PLAYER1 0

/-- Witness for C8: an exhausted living PLAYER1 character is fully reset
when PLAYER1's turn starts. -/
theorem C8_startTurn_spec_witness :
    (0 < gsC8w.characters.length ∧ chC8w.team = gsC8w.currentTurn ∧
      chC8w.isAlive = true) ∧
    (TurnManager.startTurn 7 gsC8w).characters.getD 0 defaultCharacter =
      { chC8w with
          hasAttacked := false,
          movementPointsLeft := some GAME_CONSTANTS.MOVEMENT_POINTS_PER_TURN } :=
  ⟨by decide,
   ((C8_startTurn_spec gsC8w 7).2.2.2 0 (by decide)).1 (by decide) (by decide)⟩

/-- Claim C9. `determineWinnerByTime` awards the win to the team with
strictly more living characters; on equal counts, to the team with strictly
greater summed current health over its living characters; and on a full tie,
deterministically to PLAYER1. -/
theorem C9_determineWinnerByTime_spec (gs : GameState) :
    (livingCount gs Team.PLAYER2 < livingCount gs Team.PLAYER1 →
      TimerManager.determineWinnerByTime gs = Team.PLAYER1) ∧
    (livingCount gs Team.PLAYER1 < livingCount gs Team.PLAYER2 →
      TimerManager.determineWinnerByTime gs = Team.PLAYER2) ∧
    (livingCount gs Team.PLAYER1 = livingCount gs Team.PLAYER2 →
      livingHpSum gs Team.PLAYER2 < livingHpSum gs Team.PLAYER1 →
      TimerManager.determineWinnerByTime gs = Team.PLAYER1) ∧
    (livingCount gs Team.PLAYER1 = livingCount gs Team.PLAYER2 →
      livingHpSum gs Team.PLAYER1 < livingHpSum gs Team.PLAYER2 →
      TimerManager.determineWinnerByTime gs = Team.PLAYER2) ∧
    (livingCount gs Team.PLAYER1 = livingCount gs Team.PLAYER2 →
      livingHpSum gs Team.PLAYER1 = livingHpSum gs Team.PLAYER2 →
      TimerManager.determineWinnerByTime gs = Team.PLAYER1) := by
  unfold TimerManager.determineWinnerByTime livingCount livingHpSum
  simp only [List.countP_eq_length_filter, foldl_add_currentHp, zero_add]
  split_ifs with h1 h2 h3 h4 <;>
    refine ⟨fun hc => ?_, fun hc => ?_, fun hc hs => ?_, fun hc hs => ?_,
      fun hc hs => ?_⟩ <;>
    first
      | rfl
      | (exfalso; omega)

def p1aC9w : Character :=
  mkChar "pa" Team.PLAYER1 ⟨1, 1⟩ CombatType.MELEE 30 10 0 true false (some 2)

def p1bC9w : Character :=
  mkChar "pb" Team.PLAYER1 ⟨1, 3⟩ CombatType.MELEE 30 10 0 true false (some 2)

def p2aC9w : Character :=
  mkChar "qa" Team.PLAYER2 ⟨6, 1⟩ CombatType.MELEE 30 10 0 true false (some 2)

def p2bC9w : Character :=
  { mkChar "qb" Team.PLAYER2 ⟨6, 3⟩ CombatType.MELEE 30 10 0 false false (some 2)
    with currentHp := 0 }

def gsC9w : GameState :=
  mkState [p1aC9w, p1bC9w, p2aC9w, p2bC9w] Team.PLAYER1 2

/-- Witness for C9: two living PLAYER1 characters against one living
PLAYER2 character; PLAYER1 wins on the count comparison. -/
theorem C9_determineWinnerByTime_spec_witness :
    livingCount gsC9w Team.PLAYER2 < livingCount gsC9w Team.PLAYER1 ∧
    TimerManager.determineWinnerByTime gsC9w = Team.PLAYER1 :=
  ⟨by decide, (C9_determineWinnerByTime_spec gsC9w).1 (by decide)⟩

/-! ### Helper lemmas for the autoEndTurn flag -/

theorem startTurn_preserves_autoEndTurn (now : Int) (gs : GameState) :
    (TurnManager.startTurn now gs).autoEndTurn = gs.autoEndTurn := rfl

theorem endTurn_preserves_autoEndTurn (now : Int) (gs : GameState) :
    (TurnManager.endTurn now gs).autoEndTurn = gs.autoEndTurn := rfl

theorem executeMove_keeps_autoEndTurn (cid : String) (p : Position)
    (gs : GameState) (h : gs.autoEndTurn = true) :
    (MovementSystem.executeMove cid p gs).autoEndTurn = true := by
  simp only [MovementSystem.executeMove]
  split
  · rfl
  · exact h

theorem handleEndTurn_newState_autoEndTurn (now : Int) (gs gs2 : GameState)
    (hs : (BattleManager.handleEndTurn now gs).newState = some gs2) :
    gs2.autoEndTurn = gs.autoEndTurn := by
  simp only [BattleManager.handleEndTurn, Option.some.injEq] at hs
  subst hs
  rfl

theorem handleMove_newState_autoEndTurn (cid : String) (p : Position)
    (now : Int) (gs gs2 : GameState) (h : gs.autoEndTurn = true)
    (hs : (BattleManager.handleMove cid p now gs).newState = some gs2) :
    gs2.autoEndTurn = true := by
  cases hfind : gs.characters.find? (fun c => decide (c.id = cid)) with
  | none => simp [BattleManager.handleMove, hfind] at hs
  | some character =>
    simp only [BattleManager.handleMove, hfind] at hs
    have hx := executeMove_keeps_autoEndTurn character.id p gs h
    repeat' split at hs
    all_goals
      first
        | (obtain rfl := Option.some.inj hs; exact hx)
        | exact (handleEndTurn_newState_autoEndTurn now _ gs2 hs).trans hx
        | simp at hs

theorem handleAttack_newState_autoEndTurn (aid tid : String) (now : Int)
    (gs gs2 : GameState) (h : gs.autoEndTurn = true)
    (hs : (BattleManager.handleAttack aid tid now gs).newState = some gs2) :
    gs2.autoEndTurn = true := by
  cases hfa : gs.characters.find? (fun c => decide (c.id = aid)) with
  | none => simp [BattleManager.handleAttack, hfa] at hs
  | some attacker =>
    cases hft : gs.characters.find? (fun c => decide (c.id = tid)) with
    | none => simp [BattleManager.handleAttack, hfa, hft] at hs
    | some target =>
      simp only [BattleManager.handleAttack, hfa, hft] at hs
      repeat' split at hs
      all_goals
        first
          | (obtain rfl := Option.some.inj hs; exact h)
          | exact (handleEndTurn_newState_autoEndTurn now _ gs2 hs).trans h
          | simp at hs

/-- Claim C10. Once the battle record's `autoEndTurn` flag is true, it stays
true: `startTurn`, `endTurn`, `executeMove`, and every state produced by
`processAction` (including the orchestrator's auto-end-turn handling in
`handleMove` and `handleAttack`) preserve it — no operation ever resets it
to false, so a flag raised in one team's turn is still set during the
following team's turn. -/
theorem C10_autoEndTurn_preserved (gs : GameState) (action : BattleAction)
    (playerId : String) (now : Int) (h : gs.autoEndTurn = true) :
    (TurnManager.startTurn now gs).autoEndTurn = true ∧
    (TurnManager.endTurn now gs).autoEndTurn = true ∧
    (∀ cid p, (MovementSystem.executeMove cid p gs).autoEndTurn = true) ∧
    (∀ gs2,
      (BattleManager.processAction action playerId now gs).newState = some gs2 →
      gs2.autoEndTurn = true) := by
  refine ⟨(startTurn_preserves_autoEndTurn now gs).trans h,
    (endTurn_preserves_autoEndTurn now gs).trans h,
    fun cid p => executeMove_keeps_autoEndTurn cid p gs h,
    fun gs2 hs => ?_⟩
  unfold BattleManager.processAction at hs
  split at hs
  · simp at hs
  · cases action with
    | move cid f t => exact handleMove_newState_autoEndTurn cid t now gs gs2 h hs
    | attack a t => exact handleAttack_newState_autoEndTurn a t now gs gs2 h hs
    | endTurn => exact (handleEndTurn_newState_autoEndTurn now gs gs2 hs).trans h
    | equipItem a b => simp at hs
    | surrender =>
        simp only [BattleManager.handleSurrender, Option.some.injEq] at hs
        subst hs
        exact h

def gsC10w : GameState := { mkState [] Team.PLAYER1 2 with autoEndTurn := true }

/-- Witness for C10: a battle with the flag raised keeps it raised across
an end of turn. -/
theorem C10_autoEndTurn_preserved_witness :
    gsC10w.autoEndTurn = true ∧
    (TurnManager.endTurn 3 gsC10w).autoEndTurn = true :=
  ⟨by decide,
   (C10_autoEndTurn_preserved gsC10w BattleAction.endTurn "p1" 3 (by decide)).2.1⟩
